import Mathlib

/-!
Verification of the grid-based radius scraper
(`src/execution/scrape_google_maps_radius.py`).

The scraper partitions a circular search area into grid cells, queries an
external places provider once per cell with retry/backoff, filters each raw
place by true-radius membership and an optional category filter, and merges
the survivors into a results dictionary keyed by place identifier.

Modelling conventions:
* Python floats are modelled as exact rationals (`ℚ`).
* The transcendental values of the source (the haversine distance of
  `haversine_distance`, built from `sin`/`cos`/`asin`, and
  `math.cos(math.radians(center_lat))` in `generate_grid_cells`) have no
  executable counterpart over `ℚ`, so the development is parametric in them:
  the distance function is a field of the scraper state and the cosine is an
  explicit argument.  Every theorem below holds for an arbitrary distance
  function, hence in particular for the haversine.
* Absent JSON keys are `none`; Python truthiness (`if not place_id:`,
  `if place_lat and place_lon:`) is modelled explicitly.
* The Python dict `self.results` is an insertion-ordered association list;
  `dict.__contains__` / indexing is `List.lookup`, insertion of a fresh key
  appends at the end.
* The network is abstracted as a stream of per-attempt outcomes consumed by
  the retry loop of `scrape_cell`; sleeps and prints are I/O only and have no
  state effect.
-/

namespace ScrapeGoogleMapsRadius

/-- Python truthiness of an optional numeric value: `None` and `0` are falsy. -/
def pyTruthyNum : Option ℚ → Bool
  | none => false
  | some x => decide (x ≠ 0)

/-- Python truthiness of an optional string: `None` and `""` are falsy. -/
def pyTruthyStr : Option String → Bool
  | none => false
  | some s => decide (s ≠ "")

/-- Python `str.lower()`: character-wise lowering of the underlying characters
(`String.toLower` is the same map, stated on `String.data` so it evaluates). -/
def pyLower (s : String) : String := ⟨s.data.map Char.toLower⟩

/-- Python `range(a, b)` over integers, as the list `[a, a+1, ..., b-1]`. -/
def pyRange (a b : ℤ) : List ℤ := (List.range (b - a).toNat).map (fun (k : ℕ) => a + (k : ℤ))

/-- Constant `GRID_CELL_SIZE_KM = 2` (line 26 of the source). -/
def GRID_CELL_SIZE_KM : ℚ := 2

/-- Constant `max_retries = 3` (line 132 of the source). -/
def max_retries : Nat := 3

/-- One provider-returned place item as read by `scrape_cell` (lines 153-190):
`place.get(key)` of an absent key is `none`; `place.get("categories", [])`
defaults to `[]`, so the category list is total. -/
structure RawPlace where
  placeId : Option String
  title : Option String
  address : Option String
  phoneUnformatted : Option String
  website : Option String
  totalScore : Option ℚ
  reviewsCount : Option ℤ
  categories : List String
  lat : Option ℚ
  lng : Option ℚ
  url : Option String
deriving DecidableEq

/-- The flattened business row stored in `self.results` (lines 177-189). -/
structure BusinessRecord where
  business_name : String
  address : String
  phone : String
  website : String
  rating : ℚ
  total_reviews : ℤ
  categories : String
  latitude : Option ℚ
  longitude : Option ℚ
  place_id : String
  google_maps_url : String
deriving DecidableEq

/-- Model of `self.results`: the insertion-ordered dictionary from place id to record. -/
abbrev ResultSet := List (String × BusinessRecord)

/-- The scraper state set in `__init__` (lines 30-36).  The field
`haversine_distance` stands for the method of lines 41-48: a pure function of
the four coordinates, abstracted because its formula is transcendental. -/
structure Scraper where
  haversine_distance : ℚ → ℚ → ℚ → ℚ → ℚ
  center_lat : ℚ
  center_lon : ℚ
  radius_km : ℚ
  business_types : List String

/-- Normalisation of the `business_types` argument in `__init__` (line 34):
a falsy (empty) list and the literal `["all"]` both mean "no filter". -/
def initBusinessTypes (business_types : List String) : List String :=
  if business_types ≠ [] ∧ business_types ≠ ["all"] then business_types else []

/-- One grid cell `(min_lat, min_lon, max_lat, max_lon)` as produced by
`generate_grid_cells` (line 53). -/
structure GridCell where
  min_lat : ℚ
  min_lon : ℚ
  max_lat : ℚ
  max_lon : ℚ
deriving DecidableEq

/-- Method `generate_grid_cells` (lines 50-84).  `cosCenterLat` stands for
`math.cos(math.radians(self.center_lat))` of line 57; `1 / 111.32` and the
cell bounds are the exact rational counterparts of the source arithmetic.
The `print` of line 83 is I/O only.  At `cosCenterLat = 0` the rational
model reads `1 / (111.32 * 0)` as 0, a value no execution produces: the IEEE
cosine is strictly positive on the CLI-admitted latitude range (about
6.12e-17 at plus or minus 90 degrees), and an exact zero would raise ZeroDivisionError
at line 57 instead of yielding cells; no theorem below relies on the value
at a zero cosine. -/
def generate_grid_cells (self : Scraper) (cosCenterLat : ℚ) : List GridCell :=
  let lat_deg_per_km : ℚ := 1 / 111.32
  let lon_deg_per_km : ℚ := 1 / (111.32 * cosCenterLat)
  let lat_cells : ℤ := ⌈self.radius_km * 2 / GRID_CELL_SIZE_KM⌉
  let lon_cells : ℤ := ⌈self.radius_km * 2 / GRID_CELL_SIZE_KM⌉
  (pyRange (-lat_cells) (lat_cells + 1)).flatMap (fun (i : ℤ) =>
    (pyRange (-lon_cells) (lon_cells + 1)).filterMap (fun (j : ℤ) =>
      let min_lat := self.center_lat + ((i : ℚ) * GRID_CELL_SIZE_KM * lat_deg_per_km)
      let max_lat := self.center_lat + (((i : ℚ) + 1) * GRID_CELL_SIZE_KM * lat_deg_per_km)
      let min_lon := self.center_lon + ((j : ℚ) * GRID_CELL_SIZE_KM * lon_deg_per_km)
      let max_lon := self.center_lon + (((j : ℚ) + 1) * GRID_CELL_SIZE_KM * lon_deg_per_km)
      let cell_center_lat := (min_lat + max_lat) / 2
      let cell_center_lon := (min_lon + max_lon) / 2
      let distance := self.haversine_distance self.center_lat self.center_lon
        cell_center_lat cell_center_lon
      if distance ≤ self.radius_km then
        some ⟨min_lat, min_lon, max_lat, max_lon⟩
      else
        none))

/-- Method `create_polygon_coords` (lines 86-95): the `[lon, lat]` corner list sent
to the provider, clockwise from top-right and closed. -/
def create_polygon_coords (_self : Scraper)
    (min_lat min_lon max_lat max_lon : ℚ) : List (List ℚ) :=
  [[max_lon, max_lat],
   [max_lon, min_lat],
   [min_lon, min_lat],
   [min_lon, max_lat],
   [max_lon, max_lat]]

/-- The radius filter of `scrape_cell` (lines 158-167): the place is dropped
exactly when both coordinates are Python-truthy (present and nonzero) and the
distance from the search centre strictly exceeds `radius_km`. -/
def radiusDiscard (self : Scraper) (place : RawPlace) : Bool :=
  pyTruthyNum place.lat && pyTruthyNum place.lng &&
    decide (self.radius_km < self.haversine_distance self.center_lat self.center_lon
      (place.lat.getD 0) (place.lng.getD 0))

/-- The business-type filter of `scrape_cell` (lines 169-173): with a
non-empty filter the place is kept only when some requested type, lowercased,
equals some category token, lowercased (`bt.lower() in [c.lower() for c in
categories]` is list membership, i.e. exact string equality). -/
def passesCategory (self : Scraper) (place : RawPlace) : Bool :=
  if self.business_types.isEmpty then true
  else self.business_types.any (fun bt => (place.categories.map pyLower).contains (pyLower bt))

/-- The `BusinessRecord` built at insertion (lines 177-189): missing provider
fields default to `""` or `0`; latitude and longitude keep their optional
values (`None` is stored as-is). -/
def mkBusinessRecord (place : RawPlace) (place_id : String) : BusinessRecord :=
  { business_name := place.title.getD ""
    address := place.address.getD ""
    phone := place.phoneUnformatted.getD ""
    website := place.website.getD ""
    rating := place.totalScore.getD 0
    total_reviews := place.reviewsCount.getD 0
    categories := String.intercalate ", " place.categories
    latitude := place.lat
    longitude := place.lng
    place_id := place_id
    google_maps_url := place.url.getD "" }

/-- The body of the per-place loop of `scrape_cell` (lines 153-190), threading
the pair `(self.results, new_count)`: skip on falsy id, on radius discard, on
category mismatch, and on an already-present id; otherwise insert the new
record and count it. -/
def processPlace (self : Scraper) (acc : ResultSet × Nat) (place : RawPlace) :
    ResultSet × Nat :=
  if !(pyTruthyStr place.placeId) then acc
  else
    let place_id := place.placeId.getD ""
    if radiusDiscard self place then acc
    else if !(passesCategory self place) then acc
    else if (List.lookup place_id acc.1).isSome then acc
    else (acc.1 ++ [(place_id, mkBusinessRecord place place_id)], acc.2 + 1)

/-- Processing of a successful response body in `scrape_cell` (lines 151-193):
fold the per-place loop over the parsed results and return `new_count`
together with the updated dictionary. -/
def processResults (self : Scraper) (results : List RawPlace) (s : ResultSet) :
    Nat × ResultSet :=
  let out := results.foldl (processPlace self) (s, 0)
  (out.2, out.1)

/-- The observable outcome of one `requests.post` attempt inside the retry
loop of `scrape_cell`: a 429 status (line 143), a timeout (line 195), another
network-layer `RequestException` (line 199), a non-2xx status turned into an
exception by `raise_for_status` (line 148, also caught at line 199), or a
parsed 2xx body. -/
inductive Outcome where
  | rateLimited
  | timeout
  | netError
  | httpError
  | ok (results : List RawPlace)
deriving DecidableEq

/-- Whether an attempt outcome is a parsed successful response. -/
def Outcome.isOk : Outcome → Bool
  | .ok _ => true
  | _ => false

/-- The retry loop of `scrape_cell` (lines 133-205).  Each iteration of
`for attempt in range(max_retries)` issues one request and consumes the next
outcome.  A 429 sleeps and `continue`s, a timeout or `RequestException`
sleeps and falls to the next iteration — all three advance the attempt
counter — while a successful response is processed and its `new_count`
returned.  When the loop exhausts its attempts, the function returns 0
(line 205) with the results dictionary untouched. -/
def scrapeCellGo (self : Scraper) : Nat → List Outcome → ResultSet → Nat × ResultSet
  | 0, _, s => (0, s)
  | _ + 1, [], s => (0, s)
  | _ + 1, Outcome.ok results :: _, s => processResults self results s
  | n + 1, Outcome.rateLimited :: rest, s => scrapeCellGo self n rest s
  | n + 1, Outcome.timeout :: rest, s => scrapeCellGo self n rest s
  | n + 1, Outcome.netError :: rest, s => scrapeCellGo self n rest s
  | n + 1, Outcome.httpError :: rest, s => scrapeCellGo self n rest s

/-- Method `scrape_cell` (lines 97-205).  The polygon and payload of lines 100-128
shape only the outbound request, which the outcome stream abstracts; the
return value and the effect on `self.results` come from the retry loop. -/
def scrape_cell (self : Scraper) (cell_coords : GridCell)
    (outcomes : List Outcome) (s : ResultSet) : Nat × ResultSet :=
  let _polygon := create_polygon_coords self cell_coords.min_lat cell_coords.min_lon
    cell_coords.max_lat cell_coords.max_lon
  scrapeCellGo self max_retries outcomes s

/-- The sequential per-cell loop of `scrape` (lines 218-222): each planned
cell is queried in order with its own outcome stream, threading
`self.results`; the `time.sleep(2)` pacing is I/O only. -/
def scrapeCells (self : Scraper) (cells : List GridCell)
    (streams : List (List Outcome)) (s : ResultSet) : ResultSet :=
  (cells.zip streams).foldl (fun st p => (scrape_cell self p.1 p.2 st).2) s

/-- Method `scrape` (lines 207-229): plan the grid, start from the empty results
dictionary of `__init__` (line 35), and return the final dictionary. -/
def scrape (self : Scraper) (cosCenterLat : ℚ)
    (streams : List (List Outcome)) : ResultSet :=
  scrapeCells self (generate_grid_cells self cosCenterLat) streams []

/-! Concrete instances used to evaluate the model on sample inputs. -/

/-- A distance function that reports every pair of points at distance 0. -/
def distZero : ℚ → ℚ → ℚ → ℚ → ℚ := fun _ _ _ _ => 0

/-- A distance function that reports every pair of points at distance 10 km
(for reference, the true haversine distance from (10, 10) to (0, 20) is about
1570 km, also far beyond a 1 km radius). -/
def distConst10 : ℚ → ℚ → ℚ → ℚ → ℚ := fun _ _ _ _ => 10

/-- A scraper centred at (0, 0) with a 1 km radius and no category filter. -/
def scraperA : Scraper := ⟨distZero, 0, 0, 1, []⟩

/-- A scraper centred at (10, 10) with a 1 km radius, whose distance function
puts every point 10 km away — past the radius. -/
def scraperB : Scraper := ⟨distConst10, 10, 10, 1, []⟩

/-- A scraper with the category filter `["plumber"]`. -/
def scraperPl : Scraper := ⟨distZero, 0, 0, 1, ["plumber"]⟩

/-- A scraper with the category filter `["Electrician"]`. -/
def scraperEl : Scraper := ⟨distZero, 0, 0, 1, ["Electrician"]⟩

/-- A minimal raw place: identifier "A", everything else absent. -/
def placeA : RawPlace := ⟨some "A", none, none, none, none, none, none, [], none, none, none⟩

/-- A raw place with identifier "A" but different field values, used to probe
first-seen-wins against an existing "A" entry. -/
def placeA2 : RawPlace :=
  ⟨some "A", some "Renamed", none, none, none, none, none, [], none, none, none⟩

/-- A raw place on the equator: latitude exactly 0 (present but Python-falsy),
longitude 20. -/
def placeB : RawPlace :=
  ⟨some "B", some "Zero Latitude Diner", none, none, none, none, none, [],
    some 0, some 20, none⟩

/-- A raw place with truthy coordinates (1, 1). -/
def placeC : RawPlace :=
  ⟨some "C", none, none, none, none, none, none, [], some 1, some 1, none⟩

/-- A raw place whose category list is `["Plumber"]`. -/
def placePl : RawPlace :=
  ⟨some "P", none, none, none, none, none, none, ["Plumber"], none, none, none⟩

/-- A raw place with identifier "W" and every optional field absent. -/
def placeW : RawPlace := ⟨some "W", none, none, none, none, none, none, [], none, none, none⟩

/-- The record stored for `placeA`. -/
def recA : BusinessRecord := mkBusinessRecord placeA "A"

/-- An arbitrary concrete cell (cell coordinates do not influence the
processing of a response). -/
def cellA : GridCell := ⟨0, 0, 1, 1⟩

/-- The cell produced for offsets i = 0, j = 0 by `scraperA` with cosine 1:
its latitude and longitude both step by `2 * (1 / 111.32) = 50 / 2783`. -/
def cellW : GridCell := ⟨0, 0, 50 / 2783, 50 / 2783⟩

/-! Helper lemmas about the dictionary model and the grid ranges. -/

/-- Unfolding `List.lookup` at a cons cell, with the key comparison as a
propositional `if`. -/
theorem lookup_cons_eq_if (k a : String) (b : BusinessRecord) (l : ResultSet) :
    List.lookup k ((a, b) :: l) = if k = a then some b else List.lookup k l := by
  by_cases h : k = a
  · subst h
    simp [List.lookup]
  · have hb : (k == a) = false := beq_eq_false_iff_ne.mpr h
    simp [List.lookup, hb, h]

/-- Lookup distributes over append as a left-biased choice. -/
theorem lookup_append_or (k : String) (l₁ l₂ : ResultSet) :
    List.lookup k (l₁ ++ l₂) = (List.lookup k l₁).or (List.lookup k l₂) := by
  induction l₁ with
  | nil => simp [List.lookup]
  | cons a t ih =>
    obtain ⟨ka, b⟩ := a
    rw [List.cons_append, lookup_cons_eq_if, lookup_cons_eq_if]
    by_cases h : k = ka
    · simp [h]
    · simp [h, ih]

/-- An existing binding survives appending entries on the right. -/
theorem lookup_append_of_some {k : String} {l₁ : ResultSet} {r : BusinessRecord}
    (l₂ : ResultSet) (h : List.lookup k l₁ = some r) :
    List.lookup k (l₁ ++ l₂) = some r := by
  rw [lookup_append_or, h, Option.or]

/-- Reading back a freshly appended binding. -/
theorem lookup_append_self {k : String} {l : ResultSet} {r : BusinessRecord}
    (h : List.lookup k l = none) :
    List.lookup k (l ++ [(k, r)]) = some r := by
  rw [lookup_append_or, h, lookup_cons_eq_if]
  simp

/-- Case analysis of a lookup in a one-entry extension. -/
theorem lookup_append_single_cases {k pid : String} {l : ResultSet}
    {r rec : BusinessRecord}
    (h : List.lookup k (l ++ [(pid, rec)]) = some r) :
    List.lookup k l = some r ∨ (k = pid ∧ r = rec) := by
  rw [lookup_append_or] at h
  cases hl : List.lookup k l with
  | some r' =>
    rw [hl] at h
    simp only [Option.or] at h
    exact Or.inl h
  | none =>
    rw [hl, Option.none_or, lookup_cons_eq_if] at h
    by_cases hk : k = pid
    · rw [if_pos hk] at h
      exact Or.inr ⟨hk, (Option.some.inj h).symm⟩
    · rw [if_neg hk] at h
      simp [List.lookup] at h

/-- Membership in the model of Python `range(a, b)`. -/
theorem mem_pyRange {a b k : ℤ} : k ∈ pyRange a b ↔ a ≤ k ∧ k < b := by
  constructor
  · intro h
    simp only [pyRange, List.mem_map, List.mem_range] at h
    obtain ⟨m, hm, hk⟩ := h
    omega
  · intro h
    obtain ⟨h₁, h₂⟩ := h
    simp only [pyRange, List.mem_map, List.mem_range]
    refine ⟨(k - a).toNat, by omega, by omega⟩

/-- Case analysis of one per-place step: either the place is skipped and the
accumulator is untouched, or the place passed every inclusion rule, its
identifier is fresh, and its record is appended and counted. -/
theorem processPlace_eq_or_insert (self : Scraper) (acc : ResultSet × Nat)
    (place : RawPlace) :
    processPlace self acc place = acc ∨
    ∃ pid, place.placeId = some pid ∧ pid ≠ "" ∧
      radiusDiscard self place = false ∧ passesCategory self place = true ∧
      List.lookup pid acc.1 = none ∧
      processPlace self acc place =
        (acc.1 ++ [(pid, mkBusinessRecord place pid)], acc.2 + 1) := by
  cases hid : place.placeId with
  | none => left; simp [processPlace, pyTruthyStr, hid]
  | some pid =>
    by_cases hpe : pid = ""
    · subst hpe; left; simp [processPlace, pyTruthyStr, hid]
    · by_cases hrad : radiusDiscard self place
      · left; simp [processPlace, pyTruthyStr, hid, hpe, hrad]
      · by_cases hcat : passesCategory self place
        · cases hlook : List.lookup pid acc.1 with
          | some r =>
            left; simp [processPlace, pyTruthyStr, hid, hpe, hrad, hcat, hlook]
          | none =>
            right
            exact ⟨pid, rfl, hpe, by simpa using hrad, hcat, hlook,
              by simp [processPlace, pyTruthyStr, hid, hpe, hrad, hcat, hlook]⟩
        · left; simp [processPlace, pyTruthyStr, hid, hpe, hrad, hcat]

/-- Invariant of the per-place fold of `scrape_cell`: the dictionary only
grows, it grows by exactly the returned count, existing bindings survive
untouched, and every new binding is the record of some processed place that
passed the radius and category filters. -/
theorem foldl_processPlace_spec (self : Scraper) :
    ∀ (places : List RawPlace) (res : ResultSet) (cnt : Nat),
      ((places.foldl (processPlace self) (res, cnt)).1.length + cnt
        = res.length + (places.foldl (processPlace self) (res, cnt)).2) ∧
      (∀ k r, List.lookup k res = some r →
        List.lookup k (places.foldl (processPlace self) (res, cnt)).1 = some r) ∧
      (∀ k r, List.lookup k (places.foldl (processPlace self) (res, cnt)).1 = some r →
        List.lookup k res = some r ∨
        ∃ p ∈ places, p.placeId = some k ∧ r = mkBusinessRecord p k ∧
          radiusDiscard self p = false ∧ passesCategory self p = true)
  | [], res, cnt => by simp
  | p :: ps, res, cnt => by
    rw [List.foldl_cons]
    rcases processPlace_eq_or_insert self (res, cnt) p with heq |
      ⟨pid, hpid, _, hrad, hcat, _, heq⟩
    · rw [heq]
      obtain ⟨ih₁, ih₂, ih₃⟩ := foldl_processPlace_spec self ps res cnt
      refine ⟨ih₁, ih₂, ?_⟩
      intro k r hk
      rcases ih₃ k r hk with h | ⟨q, hq, hrest⟩
      · exact Or.inl h
      · exact Or.inr ⟨q, List.mem_cons_of_mem _ hq, hrest⟩
    · rw [heq]
      dsimp only
      obtain ⟨ih₁, ih₂, ih₃⟩ := foldl_processPlace_spec self ps
        (res ++ [(pid, mkBusinessRecord p pid)]) (cnt + 1)
      refine ⟨?_, ?_, ?_⟩
      · rw [List.length_append] at ih₁
        simp only [List.length_cons, List.length_nil] at ih₁
        omega
      · intro k r hk
        exact ih₂ k r (lookup_append_of_some _ hk)
      · intro k r hk
        rcases ih₃ k r hk with h | ⟨q, hq, hrest⟩
        · rcases lookup_append_single_cases h with h' | ⟨hk', hr'⟩
          · exact Or.inl h'
          · subst hk'
            exact Or.inr ⟨p, List.mem_cons_self _ _, hpid, hr', hrad, hcat⟩
        · exact Or.inr ⟨q, List.mem_cons_of_mem _ hq, hrest⟩

/-- The retry loop advances one attempt per non-success outcome, whatever its
kind: 429, timeout, network error and HTTP error all consume budget alike. -/
theorem scrapeCellGo_step (self : Scraper) (n : Nat) (o : Outcome)
    (rest : List Outcome) (s : ResultSet) (h : o.isOk = false) :
    scrapeCellGo self (n + 1) (o :: rest) s = scrapeCellGo self n rest s := by
  cases o with
  | ok results => simp [Outcome.isOk] at h
  | rateLimited => rfl
  | timeout => rfl
  | netError => rfl
  | httpError => rfl

/-- When no attempt within the budget succeeds, the loop returns 0 with the
dictionary untouched. -/
theorem scrapeCellGo_all_fail (self : Scraper) :
    ∀ (n : Nat) (ocs : List Outcome) (s : ResultSet),
      (∀ o ∈ ocs.take n, o.isOk = false) →
      scrapeCellGo self n ocs s = (0, s)
  | 0, _, _, _ => rfl
  | _ + 1, [], _, _ => rfl
  | n + 1, o :: rest, s, h => by
    have ho := h o (by rw [List.take_succ_cons]; exact List.mem_cons_self _ _)
    rw [scrapeCellGo_step self n o rest s ho]
    exact scrapeCellGo_all_fail self n rest s
      (fun q hq => h q (by rw [List.take_succ_cons]; exact List.mem_cons_of_mem _ hq))

/-- Full effect of the retry loop: the dictionary grows by exactly the
returned count, existing bindings survive untouched, and every new binding is
the record of a place from some successful response in the stream that passed
the radius and category filters. -/
theorem scrapeCellGo_spec (self : Scraper) :
    ∀ (n : Nat) (ocs : List Outcome) (s : ResultSet),
      ((scrapeCellGo self n ocs s).2.length = s.length + (scrapeCellGo self n ocs s).1) ∧
      (∀ k r, List.lookup k s = some r →
        List.lookup k (scrapeCellGo self n ocs s).2 = some r) ∧
      (∀ k r, List.lookup k (scrapeCellGo self n ocs s).2 = some r →
        List.lookup k s = some r ∨
        ∃ places, Outcome.ok places ∈ ocs ∧ ∃ p ∈ places, p.placeId = some k ∧
          r = mkBusinessRecord p k ∧ radiusDiscard self p = false ∧
          passesCategory self p = true)
  | 0, ocs, s => by
    refine ⟨by simp [scrapeCellGo], by simp [scrapeCellGo], ?_⟩
    simp only [scrapeCellGo]
    exact fun k r h => Or.inl h
  | n + 1, [], s => by
    refine ⟨by simp [scrapeCellGo], by simp [scrapeCellGo], ?_⟩
    simp only [scrapeCellGo]
    exact fun k r h => Or.inl h
  | n + 1, o :: rest, s => by
    by_cases ho : o.isOk = true
    · obtain ⟨results, rfl⟩ : ∃ results, o = Outcome.ok results := by
        cases o
        case ok results => exact ⟨results, rfl⟩
        all_goals simp [Outcome.isOk] at ho
      simp only [scrapeCellGo, processResults]
      obtain ⟨h₁, h₂, h₃⟩ := foldl_processPlace_spec self results s 0
      refine ⟨by omega, h₂, ?_⟩
      intro k r hk
      rcases h₃ k r hk with h | ⟨p, hp, hrest⟩
      · exact Or.inl h
      · exact Or.inr ⟨results, List.mem_cons_self _ _, p, hp, hrest⟩
    · rw [scrapeCellGo_step self n o rest s (by simpa using ho)]
      obtain ⟨h₁, h₂, h₃⟩ := scrapeCellGo_spec self n rest s
      refine ⟨h₁, h₂, ?_⟩
      intro k r hk
      rcases h₃ k r hk with h | ⟨places, hpl, hrest⟩
      · exact Or.inl h
      · exact Or.inr ⟨places, List.mem_cons_of_mem _ hpl, hrest⟩

/-- Unfolding: `scrape_cell` is the retry loop at the full 3-attempt budget; the polygon
payload does not touch the results. -/
theorem scrape_cell_eq_go (self : Scraper) (cell : GridCell)
    (ocs : List Outcome) (s : ResultSet) :
    scrape_cell self cell ocs s = scrapeCellGo self max_retries ocs s := rfl

/-- Unfolding one successful attempt of the retry loop. -/
theorem scrapeCellGo_ok (self : Scraper) (n : Nat) (results : List RawPlace)
    (rest : List Outcome) (s : ResultSet) :
    scrapeCellGo self (n + 1) (Outcome.ok results :: rest) s
      = processResults self results s := rfl

/-- The offset (0, 0) cell generated by `scraperA` with cosine 1. -/
theorem cellW_mem : cellW ∈ generate_grid_cells scraperA 1 := by
  have hceil : (⌈scraperA.radius_km * 2 / GRID_CELL_SIZE_KM⌉ : ℤ) = 1 := by
    norm_num [scraperA, GRID_CELL_SIZE_KM]
  simp only [generate_grid_cells, hceil]
  refine List.mem_flatMap.mpr ⟨0, ?_, ?_⟩
  · rw [mem_pyRange]; constructor <;> norm_num
  refine List.mem_filterMap.mpr ⟨0, ?_, ?_⟩
  · rw [mem_pyRange]; constructor <;> norm_num
  rw [if_pos (by norm_num [scraperA, distZero])]
  norm_num [scraperA, GRID_CELL_SIZE_KM, cellW, GridCell.mk.injEq]

/-- C9: for every grid cell, the search polygon built for the provider
request is the closed five-point ring top-right, bottom-right, bottom-left,
top-left, top-right, whose first and last coordinates coincide. -/
theorem C9_polygon_ring (self : Scraper) (min_lat min_lon max_lat max_lon : ℚ) :
    create_polygon_coords self min_lat min_lon max_lat max_lon =
      [[max_lon, max_lat], [max_lon, min_lat], [min_lon, min_lat],
        [min_lon, max_lat], [max_lon, max_lat]] ∧
    (create_polygon_coords self min_lat min_lon max_lat max_lon).length = 5 ∧
    (create_polygon_coords self min_lat min_lon max_lat max_lon).head? =
      (create_polygon_coords self min_lat min_lon max_lat max_lon).getLast? :=
  ⟨rfl, rfl, rfl⟩

/-- C4: aggregation is idempotent and first-seen-wins — processing a raw
place whose identifier is already a key of the results dictionary leaves the
dictionary (and the count) entirely unchanged, whatever the place's other
field values. -/
theorem C4_first_seen_wins (self : Scraper) (acc : ResultSet × Nat)
    (place : RawPlace) (pid : String) (r : BusinessRecord)
    (hpid : place.placeId = some pid)
    (hmem : List.lookup pid acc.1 = some r) :
    processPlace self acc place = acc := by
  rcases processPlace_eq_or_insert self acc place with h |
    ⟨pid', hpid', _, _, _, hnone, _⟩
  · exact h
  · have hp : pid' = pid := Option.some.inj (hpid'.symm.trans hpid)
    subst hp
    rw [hmem] at hnone
    cases hnone

/-- Witness for C4: an "A" record is already present; re-processing a raw
place with identifier "A" and different fields changes nothing. -/
theorem C4_witness :
    processPlace scraperA ([("A", recA)], 1) placeA2 = ([("A", recA)], 1) :=
  C4_first_seen_wins scraperA ([("A", recA)], 1) placeA2 "A" recA rfl
    (by rw [lookup_cons_eq_if]; simp)

/-- C3: every cell returned by `generate_grid_cells` has its own centre
`((min_lat + max_lat) / 2, (min_lon + max_lon) / 2)` within `radius_km` of
the search centre, as measured by the scraper's distance function. -/
theorem C3_generated_cells_within_radius (self : Scraper) (cosCenterLat : ℚ)
    (h₁ : -90 ≤ self.center_lat) (h₂ : self.center_lat ≤ 90)
    (h₃ : -180 ≤ self.center_lon) (h₄ : self.center_lon ≤ 180)
    (h₅ : 0 < self.radius_km)
    (cell : GridCell) (hmem : cell ∈ generate_grid_cells self cosCenterLat) :
    self.haversine_distance self.center_lat self.center_lon
      ((cell.min_lat + cell.max_lat) / 2) ((cell.min_lon + cell.max_lon) / 2)
      ≤ self.radius_km := by
  simp only [generate_grid_cells, List.mem_flatMap, List.mem_filterMap] at hmem
  obtain ⟨i, hi, j, hj, hcell⟩ := hmem
  split at hcell
  · obtain rfl := (Option.some.inj hcell).symm
    assumption
  · cases hcell

/-- Witness for C3: the offset (0, 0) cell of `scraperA` is generated and its
centre is within the radius. -/
theorem C3_witness :
    scraperA.haversine_distance scraperA.center_lat scraperA.center_lon
      ((cellW.min_lat + cellW.max_lat) / 2) ((cellW.min_lon + cellW.max_lon) / 2)
      ≤ scraperA.radius_km :=
  C3_generated_cells_within_radius scraperA 1
    (by norm_num [scraperA]) (by norm_num [scraperA]) (by norm_num [scraperA])
    (by norm_num [scraperA]) (by norm_num [scraperA]) cellW cellW_mem

/-- C5: every generated cell satisfies `min_lat < max_lat` and
`min_lon < max_lon` for every CLI-admitted search area.  The latitude bound
part holds outright; the longitude bound needs the computed
`math.cos(math.radians(center_lat))` — the `cosCenterLat` parameter — to be
positive, which it is for every latitude the CLI admits: over the whole
closed range [-90, 90] the IEEE cosine is strictly positive
(`math.cos(math.radians(90))` evaluates to about 6.12e-17, not 0), so the
hypothesis `0 < cosCenterLat` covers exactly the claimed input range. -/
theorem C5_cells_nondegenerate (self : Scraper) (cosCenterLat : ℚ)
    (h₁ : -90 ≤ self.center_lat) (h₂ : self.center_lat ≤ 90)
    (h₃ : -180 ≤ self.center_lon) (h₄ : self.center_lon ≤ 180)
    (hcos : 0 < cosCenterLat) (h₅ : 0 < self.radius_km)
    (cell : GridCell) (hmem : cell ∈ generate_grid_cells self cosCenterLat) :
    cell.min_lat < cell.max_lat ∧ cell.min_lon < cell.max_lon := by
  simp only [generate_grid_cells, List.mem_flatMap, List.mem_filterMap] at hmem
  obtain ⟨i, hi, j, hj, hcell⟩ := hmem
  split at hcell
  · obtain rfl := (Option.some.inj hcell).symm
    have hlat : (0 : ℚ) < 1 / 111.32 := by norm_num
    have hlon : (0 : ℚ) < 1 / (111.32 * cosCenterLat) :=
      one_div_pos.mpr (mul_pos (by norm_num) hcos)
    constructor
    · show self.center_lat + (i : ℚ) * GRID_CELL_SIZE_KM * (1 / 111.32)
        < self.center_lat + ((i : ℚ) + 1) * GRID_CELL_SIZE_KM * (1 / 111.32)
      have hstep : ((i : ℚ) + 1) * GRID_CELL_SIZE_KM * (1 / 111.32)
          - (i : ℚ) * GRID_CELL_SIZE_KM * (1 / 111.32)
          = 2 * (1 / 111.32) := by
        rw [GRID_CELL_SIZE_KM]; ring
      linarith
    · show self.center_lon + (j : ℚ) * GRID_CELL_SIZE_KM * (1 / (111.32 * cosCenterLat))
        < self.center_lon + ((j : ℚ) + 1) * GRID_CELL_SIZE_KM * (1 / (111.32 * cosCenterLat))
      have hstep : ((j : ℚ) + 1) * GRID_CELL_SIZE_KM * (1 / (111.32 * cosCenterLat))
          - (j : ℚ) * GRID_CELL_SIZE_KM * (1 / (111.32 * cosCenterLat))
          = 2 * (1 / (111.32 * cosCenterLat)) := by
        rw [GRID_CELL_SIZE_KM]; ring
      linarith
  · cases hcell

/-- Witness for C5: the offset (0, 0) cell of `scraperA` (cosine 1) is
non-degenerate in both axes. -/
theorem C5_witness : cellW.min_lat < cellW.max_lat ∧ cellW.min_lon < cellW.max_lon :=
  C5_cells_nondegenerate scraperA 1
    (by norm_num [scraperA]) (by norm_num [scraperA]) (by norm_num [scraperA])
    (by norm_num [scraperA]) (by norm_num) (by norm_num [scraperA]) cellW cellW_mem

/-- C7: a cell whose every attempt times out (or fails at the network layer)
contributes zero results and leaves the dictionary untouched, and the
orchestrating loop carries on with the remaining cells from the same state —
a single cell's failure never aborts the run. -/
theorem C7_cell_failure_not_fatal :
    (∀ (self : Scraper) (cell : GridCell) (ocs : List Outcome) (s : ResultSet),
      (∀ o ∈ ocs, o = Outcome.timeout ∨ o = Outcome.netError) →
      scrape_cell self cell ocs s = (0, s)) ∧
    (∀ (self : Scraper) (cell : GridCell) (cells : List GridCell)
      (failStream : List Outcome) (streams : List (List Outcome)) (s : ResultSet),
      (∀ o ∈ failStream, o = Outcome.timeout ∨ o = Outcome.netError) →
      scrapeCells self (cell :: cells) (failStream :: streams) s =
        scrapeCells self cells streams s) := by
  have main : ∀ (self : Scraper) (cell : GridCell) (ocs : List Outcome) (s : ResultSet),
      (∀ o ∈ ocs, o = Outcome.timeout ∨ o = Outcome.netError) →
      scrape_cell self cell ocs s = (0, s) := by
    intro self cell ocs s h
    rw [scrape_cell_eq_go]
    refine scrapeCellGo_all_fail self max_retries ocs s (fun o ho => ?_)
    rcases h o (List.mem_of_mem_take ho) with rfl | rfl <;> rfl
  refine ⟨main, ?_⟩
  intro self cell cells failStream streams s h
  simp only [scrapeCells, List.zip_cons_cons, List.foldl_cons]
  rw [main self cell failStream s h]

/-- Witness for C7: three straight timeouts yield (0, unchanged) and the run
over a one-cell plan ends in the same state it started from. -/
theorem C7_witness :
    scrape_cell scraperA cellA
        [Outcome.timeout, Outcome.timeout, Outcome.timeout] [] = (0, []) ∧
    scrapeCells scraperA [cellA]
        [[Outcome.timeout, Outcome.timeout, Outcome.timeout]] [] = [] := by
  constructor
  · exact C7_cell_failure_not_fatal.1 scraperA cellA _ []
      (by intro o ho; fin_cases ho <;> simp)
  · exact (C7_cell_failure_not_fatal.2 scraperA cellA [] _ [] []
      (by intro o ho; fin_cases ho <;> simp)).trans rfl

/-- C10: `scrape_cell` returns exactly the growth of the results dictionary,
never removes or rebinds an existing identifier, and on the failure path
(no successful attempt within the budget) returns 0 with the dictionary
unchanged. -/
theorem C10_scrape_cell_frame (self : Scraper) (cell : GridCell)
    (ocs : List Outcome) (s : ResultSet) :
    ((scrape_cell self cell ocs s).2).length
        = s.length + (scrape_cell self cell ocs s).1 ∧
    (∀ k r, List.lookup k s = some r →
      List.lookup k (scrape_cell self cell ocs s).2 = some r) ∧
    ((∀ o ∈ ocs.take max_retries, o.isOk = false) →
      scrape_cell self cell ocs s = (0, s)) := by
  rw [scrape_cell_eq_go]
  obtain ⟨h₁, h₂, _⟩ := scrapeCellGo_spec self max_retries ocs s
  exact ⟨h₁, h₂, fun h => scrapeCellGo_all_fail self max_retries ocs s h⟩

/-- Witness for C10: a pre-existing "A" binding survives a successful cell,
and a cell of three failed attempts returns 0 leaving the empty state. -/
theorem C10_witness :
    List.lookup "A" (scrape_cell scraperB cellA [Outcome.ok [placeB]]
        [("A", recA)]).2 = some recA ∧
    scrape_cell scraperA cellA
        [Outcome.timeout, Outcome.netError, Outcome.httpError] [] = (0, []) :=
  ⟨(C10_scrape_cell_frame scraperB cellA [Outcome.ok [placeB]] [("A", recA)]).2.1
      "A" recA (by rw [lookup_cons_eq_if]; simp),
   (C10_scrape_cell_frame scraperA cellA
      [Outcome.timeout, Outcome.netError, Outcome.httpError] []).2.2 (by decide)⟩

/-- Counterexample for C1: three consecutive 429 responses exhaust the whole
3-attempt budget — the fourth outcome, a successful response carrying a new
place, is never requested and the cell is abandoned with zero results — while
the same successful response alone is processed on the first attempt.  Rate
limiting therefore does consume the shared retry budget. -/
theorem C1_counterexample :
    scrape_cell scraperA cellA
        [Outcome.rateLimited, Outcome.rateLimited, Outcome.rateLimited,
          Outcome.ok [placeA]] [] = (0, []) ∧
    scrape_cell scraperA cellA [Outcome.ok [placeA]] [] = (1, [("A", recA)]) := by
  constructor
  · rfl
  · rfl

/-- C1 (amended): a 429 response triggers a pause-and-retry that consumes one
attempt of the same 3-attempt budget that timeouts and network failures draw
from; once three attempts of any kind have failed the cell is abandoned with
zero results and an unchanged dictionary. -/
theorem C1_amended_shared_budget :
    (∀ (self : Scraper) (cell : GridCell) (rest : List Outcome) (s : ResultSet),
      scrape_cell self cell (Outcome.rateLimited :: rest) s
        = scrapeCellGo self (max_retries - 1) rest s) ∧
    (∀ (self : Scraper) (cell : GridCell) (ocs : List Outcome) (s : ResultSet),
      (∀ o ∈ ocs.take max_retries, o.isOk = false) →
      scrape_cell self cell ocs s = (0, s)) := by
  constructor
  · intro self cell rest s
    rw [scrape_cell_eq_go]
    exact scrapeCellGo_step self 2 Outcome.rateLimited rest s rfl
  · intro self cell ocs s h
    rw [scrape_cell_eq_go]
    exact scrapeCellGo_all_fail self max_retries ocs s h

/-- Witness for C1: one 429, one timeout and one network error together
exhaust the budget and the cell contributes nothing. -/
theorem C1_witness :
    scrape_cell scraperA cellA
        [Outcome.rateLimited, Outcome.timeout, Outcome.netError] [] = (0, []) :=
  C1_amended_shared_budget.2 scraperA cellA _ [] (by decide)

/-- Evaluation of the per-place step on the equatorial `placeB`: its latitude
`0` is Python-falsy, so the radius filter is skipped and the place is
inserted even though its distance from the centre exceeds the radius. -/
theorem processPlace_placeB :
    processPlace scraperB ([], 0) placeB
      = ([("B", mkBusinessRecord placeB "B")], 1) := by
  norm_num [processPlace, pyTruthyStr, pyTruthyNum, radiusDiscard, passesCategory,
    placeB, scraperB, List.lookup]
  decide

/-- Counterexample for C2: the radius guard is `if place_lat and place_lon:`,
Python truthiness, so a place at latitude exactly 0 (present but falsy) skips
the distance check and is inserted although its location lies beyond
`radius_km` (under `scraperB`'s distance function every point is 10 km from
the centre; the true haversine distance from (10, 10) to (0, 20) is about
1570 km, equally beyond the 1 km radius). -/
theorem C2_counterexample :
    (scrape_cell scraperB cellA [Outcome.ok [placeB]] []).2
        = [("B", mkBusinessRecord placeB "B")] ∧
    (mkBusinessRecord placeB "B").latitude = some 0 ∧
    (mkBusinessRecord placeB "B").longitude = some 20 ∧
    ¬(scraperB.haversine_distance scraperB.center_lat scraperB.center_lon 0 20
        ≤ scraperB.radius_km) := by
  refine ⟨?_, rfl, rfl, by norm_num [scraperB, distConst10]⟩
  rw [scrape_cell_eq_go,
    show scrapeCellGo scraperB max_retries [Outcome.ok [placeB]] []
      = processResults scraperB [placeB] [] from rfl]
  simp only [processResults, List.foldl_cons, List.foldl_nil, processPlace_placeB]

/-- C2 (amended): every record inserted by `scrape_cell` whose latitude and
longitude are both present *and nonzero* (Python-truthy) lies within
`radius_km` of the search centre; a present-but-zero coordinate bypasses the
filter (see the counterexample). -/
theorem C2_amended_radius_filter (self : Scraper) (cell : GridCell)
    (ocs : List Outcome) (s : ResultSet) (pid : String) (rec : BusinessRecord)
    (hfresh : List.lookup pid s = none)
    (hins : List.lookup pid (scrape_cell self cell ocs s).2 = some rec)
    (la lo : ℚ) (hla : rec.latitude = some la) (hlo : rec.longitude = some lo)
    (hla0 : la ≠ 0) (hlo0 : lo ≠ 0) :
    self.haversine_distance self.center_lat self.center_lon la lo
      ≤ self.radius_km := by
  rw [scrape_cell_eq_go] at hins
  obtain ⟨_, _, h₃⟩ := scrapeCellGo_spec self max_retries ocs s
  rcases h₃ pid rec hins with h | ⟨places, _, p, _, hpid, hrec, hrad, _⟩
  · rw [hfresh] at h
    cases h
  · subst hrec
    have hplat : p.lat = some la := hla
    have hplng : p.lng = some lo := hlo
    by_contra hnle
    rw [not_le] at hnle
    have htrue : radiusDiscard self p = true := by
      rw [radiusDiscard, hplat, hplng]
      simp only [pyTruthyNum, Option.getD_some]
      simp [hla0, hlo0, hnle]
    rw [htrue] at hrad
    cases hrad

/-- Witness for C2: `placeC` at (1, 1) has truthy coordinates, is inserted,
and its distance from the centre is within the radius. -/
theorem C2_witness :
    scraperA.haversine_distance scraperA.center_lat scraperA.center_lon 1 1
      ≤ scraperA.radius_km := by
  have hins : List.lookup "C"
      (scrape_cell scraperA cellA [Outcome.ok [placeC]] []).2
        = some (mkBusinessRecord placeC "C") := by
    rw [scrape_cell_eq_go,
      show scrapeCellGo scraperA max_retries [Outcome.ok [placeC]] []
        = processResults scraperA [placeC] [] from rfl]
    simp only [processResults, List.foldl_cons, List.foldl_nil]
    rw [show processPlace scraperA ([], 0) placeC
      = ([("C", mkBusinessRecord placeC "C")], 1) by
        norm_num [processPlace, pyTruthyStr, pyTruthyNum, radiusDiscard,
          passesCategory, placeC, scraperA, distZero, List.lookup]
        decide]
    rw [lookup_cons_eq_if]
    simp
  exact C2_amended_radius_filter scraperA cellA [Outcome.ok [placeC]] [] "C"
    (mkBusinessRecord placeC "C") rfl hins 1 1 rfl rfl (by norm_num) (by norm_num)

/-- C6: with a non-empty business-type filter a place passes the category
filter exactly when some requested type equals some of its category strings
after lowercasing — exact string equality, not substring containment — and
concretely the place with categories ["Plumber"] is inserted under the
filter ["plumber"] but discarded under ["Electrician"]. -/
theorem C6_category_filter :
    (∀ (self : Scraper) (place : RawPlace), self.business_types ≠ [] →
      (passesCategory self place = true ↔
        ∃ bt ∈ self.business_types, ∃ c ∈ place.categories,
          pyLower bt = pyLower c)) ∧
    (scrape_cell scraperPl cellA [Outcome.ok [placePl]] []).2
        = [("P", mkBusinessRecord placePl "P")] ∧
    (scrape_cell scraperEl cellA [Outcome.ok [placePl]] []).2 = [] := by
  refine ⟨?_, rfl, rfl⟩
  intro self place hne
  rw [passesCategory, if_neg (by simpa using hne)]
  constructor
  · intro h
    obtain ⟨bt, hbt, hc⟩ := List.any_eq_true.mp h
    have hmem : pyLower bt ∈ place.categories.map pyLower := by simpa using hc
    obtain ⟨c, hcmem, hceq⟩ := List.mem_map.mp hmem
    exact ⟨bt, hbt, c, hcmem, hceq.symm⟩
  · rintro ⟨bt, hbt, c, hcmem, hceq⟩
    refine List.any_eq_true.mpr ⟨bt, hbt, ?_⟩
    have hmem : pyLower bt ∈ place.categories.map pyLower :=
      List.mem_map.mpr ⟨c, hcmem, hceq.symm⟩
    simpa using hmem

/-- Witness for C6: the filter ["plumber"] is non-empty and matches the
category "Plumber" case-insensitively. -/
theorem C6_witness : passesCategory scraperPl placePl = true :=
  (C6_category_filter.1 scraperPl placePl (by simp [scraperPl])).mpr
    ⟨"plumber", by simp [scraperPl], "Plumber", by simp [placePl], by decide⟩

/-- C8: the record inserted for a surviving raw place is built from its
fields with every missing string field defaulted to "" (name, address,
phone, website, URL) and every missing numeric field defaulted to 0 (rating,
review count) — including for places whose latitude or longitude is absent,
which pass the truthiness-guarded radius filter unexamined. -/
theorem C8_missing_fields_default (self : Scraper) (acc : ResultSet × Nat)
    (place : RawPlace) (pid : String) (rec : BusinessRecord)
    (hpid : place.placeId = some pid)
    (hfresh : List.lookup pid acc.1 = none)
    (hins : List.lookup pid (processPlace self acc place).1 = some rec) :
    rec = mkBusinessRecord place pid ∧
    (place.title = none → rec.business_name = "") ∧
    (place.address = none → rec.address = "") ∧
    (place.phoneUnformatted = none → rec.phone = "") ∧
    (place.website = none → rec.website = "") ∧
    (place.url = none → rec.google_maps_url = "") ∧
    (place.totalScore = none → rec.rating = 0) ∧
    (place.reviewsCount = none → rec.total_reviews = 0) := by
  rcases processPlace_eq_or_insert self acc place with h |
    ⟨pid', hpid', _, _, _, hnone, heq⟩
  · rw [h] at hins
    rw [hins] at hfresh
    cases hfresh
  · have hp : pid' = pid := Option.some.inj (hpid'.symm.trans hpid)
    subst hp
    rw [heq] at hins
    dsimp only at hins
    rw [lookup_append_self hnone] at hins
    obtain rfl := (Option.some.inj hins).symm
    refine ⟨rfl, ?_, ?_, ?_, ?_, ?_, ?_, ?_⟩ <;>
      (intro h; simp [mkBusinessRecord, h])

/-- Witness for C8: `placeW` has every optional field (including latitude and
longitude) absent; the record stored for it carries "" and 0 defaults. -/
theorem C8_witness :
    (mkBusinessRecord placeW "W").business_name = "" ∧
    (mkBusinessRecord placeW "W").rating = 0 ∧
    (mkBusinessRecord placeW "W").total_reviews = 0 := by
  have h := C8_missing_fields_default scraperA ([], 0) placeW "W"
    (mkBusinessRecord placeW "W") rfl rfl rfl
  exact ⟨h.2.1 rfl, h.2.2.2.2.2.2.1 rfl, h.2.2.2.2.2.2.2 rfl⟩

end ScrapeGoogleMapsRadius
